import Mathlib

/-!
Shallow embedding of the AI Voice Agent repository (Flask app: STT → LLM → TTS
pipeline with an in-memory chat-history store).

Sources embedded:
- src/utils/chat_history.py   (ChatHistoryManager)
- src/utils/error_handling.py (ValidationUtils.validate_text_input)
- src/services/stt.py         (STTService)
- src/services/llm.py         (LLMService)
- src/services/tts.py         (TTSService)
- src/app.py                  (VoiceAgentApp._handle_text_query,
                               VoiceAgentApp._process_voice_pipeline)

Python strings are modelled by Lean `String`; the Python string operations
used by the code (`.strip()`, `.lower()`, slicing, `in` substring test) are
given explicit list-based definitions below.  Timestamps (`datetime.now()`)
are modelled by an abstract `Nat` clock value passed to each mutating
operation.  Random uuid generation (`uuid.uuid4()`) is modelled by a counter
(`nextUuid`) carried in the store: each generated id is fresh with
probability 1 in the source, and `uuidStr n` is the n-th generated id.
-/

namespace VoiceAgent

/-- Python `str.strip()` whitespace test (ASCII whitespace, as used here). -/
def isSpaceChar (c : Char) : Bool :=
  c = ' ' || c = '\t' || c = '\n' || c = '\r' || c = '\x0b' || c = '\x0c'

/-- Python `s.strip()`: drop leading and trailing whitespace. -/
def pyStrip (s : String) : String :=
  ⟨((s.data.dropWhile isSpaceChar).reverse.dropWhile isSpaceChar).reverse⟩

/-- Python `s.lower()` (ASCII letters; all keywords in the source are ASCII). -/
def pyLower (s : String) : String :=
  ⟨s.data.map Char.toLower⟩

/-- Boolean list-prefix test. -/
def listIsPrefix : List Char → List Char → Bool
  | [], _ => true
  | _ :: _, [] => false
  | a :: as, b :: bs => a = b && listIsPrefix as bs

/-- Boolean list-infix test. -/
def listIsInfix (pat : List Char) : List Char → Bool
  | [] => listIsPrefix pat []
  | b :: bs => listIsPrefix pat (b :: bs) || listIsInfix pat bs

/-- Python `word in s` substring containment. -/
def pyIn (word s : String) : Bool :=
  listIsInfix word.data s.data

/-- Python `s[:n]` for a nonnegative literal `n`. -/
def pyTake (n : Nat) (s : String) : String :=
  ⟨s.data.take n⟩

/-- Python `xs[-n:]` for a nonnegative `n` (note `xs[-0:]` is `xs[0:]`,
i.e. the whole list — the negative-zero slicing quirk). -/
def pySliceLast (n : Nat) (xs : List α) : List α :=
  if n = 0 then xs else xs.drop (xs.length - n)

/-- Embeds `ErrorType` enum from src/models/schemas.py. -/
inductive ErrorType where
  | stt_error
  | llm_error
  | tts_error
  | api_error
  | network_error
  | timeout_error
  | general_error
  | config_error
  | input_error
deriving DecidableEq, Repr

/-- Embeds `MessageRole` enum from src/models/schemas.py. -/
inductive MessageRole where
  | user
  | assistant
  | system
deriving DecidableEq, Repr

/-- Embeds `ChatMessage` model from src/models/schemas.py (timestamp as abstract Nat). -/
structure ChatMessage where
  role : MessageRole
  content : String
  timestamp : Nat
deriving DecidableEq, Repr

/-- Embeds `ChatSessionInfo` model from src/models/schemas.py. -/
structure ChatSessionInfo where
  session_id : String
  message_count : Nat
  created_at : Nat
  last_activity : Nat
  messages : List ChatMessage
deriving DecidableEq, Repr

/-- The id of the n-th uuid generated by `uuid.uuid4()` (modelled as fresh). -/
def uuidStr (n : Nat) : String :=
  "uuid-" ++ toString n

/-- Embeds `ChatHistoryManager` state from src/utils/chat_history.py: the ordered
dict `self.sessions` as an association list (Python dicts preserve insertion
order), plus the uuid-generator state. -/
structure ChatHistoryManager where
  sessions : List (String × ChatSessionInfo)
  nextUuid : Nat
deriving DecidableEq, Repr

namespace ChatHistoryManager

/-- The empty store (`ChatHistoryManager.__init__`). -/
def empty : ChatHistoryManager := ⟨[], 0⟩

/-- Dict lookup `self.sessions.get(session_id)` (first match; keys are
unique in any run since they all come from the fresh-uuid generator). -/
def findSession (sid : String) : List (String × ChatSessionInfo) → Option ChatSessionInfo
  | [] => none
  | (k, v) :: rest => if k = sid then some v else findSession sid rest

/-- Dict update of an existing key. -/
def updateSession (sid : String) (f : ChatSessionInfo → ChatSessionInfo) :
    List (String × ChatSessionInfo) → List (String × ChatSessionInfo)
  | [] => []
  | (k, v) :: rest =>
      if k = sid then (k, f v) :: rest else (k, v) :: updateSession sid f rest

/-- Dict deletion `del self.sessions[session_id]`. -/
def eraseSession (sid : String) (l : List (String × ChatSessionInfo)) :
    List (String × ChatSessionInfo) :=
  l.filter (fun p => p.1 ≠ sid)

/-- Embeds `ChatHistoryManager.get_session`: membership test used by the source. -/
def hasSession (m : ChatHistoryManager) (sid : String) : Bool :=
  (findSession sid m.sessions).isSome

/-- Embeds `ChatHistoryManager.create_session`: fresh uuid, empty message list,
both timestamps set to now; returns the new id and the updated store. -/
def create_session (m : ChatHistoryManager) (now : Nat) : String × ChatHistoryManager :=
  let sid := uuidStr m.nextUuid
  (sid, { sessions := m.sessions ++ [(sid, ⟨sid, 0, now, now, []⟩)],
          nextUuid := m.nextUuid + 1 })

/-- Embeds `ChatHistoryManager.get_chat_history`: session's messages, `[]` for an
unknown id (no implicit creation). -/
def get_chat_history (m : ChatHistoryManager) (sid : String) : List ChatMessage :=
  match findSession sid m.sessions with
  | some s => s.messages
  | none => []

/-- The message-append body of `add_message`: append to the session named
`sid`, set `message_count = len(session.messages)` after the append, and
bump `last_activity`. -/
def appendMessage (m : ChatHistoryManager) (sid : String) (role : MessageRole)
    (content : String) (now : Nat) : ChatHistoryManager :=
  let message : ChatMessage := ⟨role, content, now⟩
  { m with
    sessions := updateSession sid
      (fun s =>
        { s with
          messages := s.messages ++ [message],
          message_count := (s.messages ++ [message]).length,
          last_activity := now }) m.sessions }

/-- Embeds `ChatHistoryManager.add_message`.  NOTE (faithful to the source): when
`session_id` is unknown the code runs `session_id = self.create_session()`,
which generates a NEW uuid and rebinds the local variable — the message is
then appended to the freshly created session
(`(m.create_session now).1 = uuidStr m.nextUuid`), not to one named by the
caller's id. -/
def add_message (m : ChatHistoryManager) (session_id : String) (role : MessageRole)
    (content : String) (now : Nat) : Bool × ChatHistoryManager :=
  if (findSession session_id m.sessions).isSome then
    (true, appendMessage m session_id role content now)
  else
    (true,
     appendMessage (m.create_session now).2 (m.create_session now).1 role content now)

/-- Embeds `ChatHistoryManager.add_user_message`. -/
def add_user_message (m : ChatHistoryManager) (sid content : String) (now : Nat) :
    Bool × ChatHistoryManager :=
  m.add_message sid MessageRole.user content now

/-- Embeds `ChatHistoryManager.add_assistant_message`. -/
def add_assistant_message (m : ChatHistoryManager) (sid content : String) (now : Nat) :
    Bool × ChatHistoryManager :=
  m.add_message sid MessageRole.assistant content now

/-- Embeds `ChatHistoryManager.clear_session`: delete and return true when the id
exists, otherwise return false. -/
def clear_session (m : ChatHistoryManager) (sid : String) : Bool × ChatHistoryManager :=
  if (findSession sid m.sessions).isSome then
    (true, { m with sessions := eraseSession sid m.sessions })
  else (false, m)

/-- Embeds `ChatHistoryManager.get_recent_messages`: Python `messages[-limit:]`
guarded by `if messages else []`. -/
def get_recent_messages (m : ChatHistoryManager) (sid : String) (limit : Nat) :
    List ChatMessage :=
  let messages := m.get_chat_history sid
  if messages.isEmpty then [] else pySliceLast limit messages

/-- Result of `ChatHistoryManager.get_session_stats`. -/
structure SessionStats where
  total_sessions : Nat
  total_messages : Nat
  active_sessions : List String
deriving DecidableEq, Repr

/-- Embeds `ChatHistoryManager.get_session_stats`. -/
def get_session_stats (m : ChatHistoryManager) : SessionStats :=
  { total_sessions := m.sessions.length
    total_messages := (m.sessions.map (fun p => p.2.message_count)).sum
    active_sessions := (m.sessions.filter (fun p => 0 < p.2.message_count)).map (fun p => p.1) }

end ChatHistoryManager

/-! ## Validation (src/utils/error_handling.py, ValidationUtils) -/

/-- Embeds `ValidationUtils.validate_text_input`: `none` means valid; `some err`
is the error message.  The length check runs on the stripped text. -/
def validate_text_input (text : String) (max_length : Nat) : Option String :=
  if text = "" then some "Text cannot be empty"
  else
    let t := pyStrip text
    if t = "" then some "Text cannot be empty or whitespace only"
    else if max_length < t.length then
      some ("Text too long (max " ++ toString max_length ++ " characters)")
    else none

/-! ## STT service (src/services/stt.py) -/

/-- Embeds `TranscriptionResponse` model from src/models/schemas.py.  The float
confidence score is carried as an abstract value, never computed on. -/
structure TranscriptionResponse where
  success : Bool
  transcription : Option String
  confidence : Option Nat
  language : Option String
  error : Option String
  error_type : Option ErrorType
deriving DecidableEq, Repr

/-- Outcome of the remote AssemblyAI call inside `_perform_transcription`:
an error-status transcript, a completed transcript (text may be missing),
or a raised exception. -/
inductive TranscriptOutcome where
  | errorStatus (msg : String)
  | completed (text : Option String) (confidence : Option Nat)
  | raised (msg : String)
deriving DecidableEq, Repr

/-- Environment of one `STTService.transcribe_audio` call: the service may
be unconfigured, saving the upload may raise, or the remote call happens. -/
inductive STTEnv where
  | unavailable
  | saveFailure (msg : String)
  | remote (t : TranscriptOutcome)
deriving DecidableEq, Repr

/-- Embeds `STTService._perform_transcription` after the remote call: classifies an
error status, a missing/empty/whitespace-only text (the "no speech detected"
case), or returns the stripped text. -/
def perform_transcription : TranscriptOutcome → TranscriptionResponse
  | .errorStatus msg =>
      ⟨false, none, none, none,
       some ("Transcription service error: " ++ msg), some ErrorType.stt_error⟩
  | .raised msg =>
      ⟨false, none, none, none,
       some ("Transcription processing failed: " ++ msg), some ErrorType.stt_error⟩
  | .completed text confidence =>
      match text with
      | none =>
          ⟨false, none, none, none,
           some "No speech detected in audio", some ErrorType.stt_error⟩
      | some t =>
          if pyStrip t = "" then
            ⟨false, none, none, none,
             some "No speech detected in audio", some ErrorType.stt_error⟩
          else
            ⟨true, some (pyStrip t), confidence, some "en", none, none⟩

/-- Embeds `STTService.transcribe_audio`. -/
def transcribe_audio : STTEnv → TranscriptionResponse
  | .unavailable =>
      ⟨false, none, none, none,
       some "STT service not available - API key not configured",
       some ErrorType.config_error⟩
  | .saveFailure msg =>
      ⟨false, none, none, none,
       some ("Transcription failed: " ++ msg), some ErrorType.stt_error⟩
  | .remote t => perform_transcription t

/-! ## LLM service (src/services/llm.py) -/

/-- Embeds `LLMRequest` model (src/models/schemas.py); the pydantic validator
strips the text and rejects empty/whitespace-only text, see `mkLLMRequest`. -/
structure LLMRequest where
  text : String
  session_id : Option String
  include_history : Bool
deriving DecidableEq, Repr

/-- Pydantic construction of `LLMRequest`: the field constraints
`min_length=1, max_length=10000` are enforced on the RAW text during field
validation, before the `text` validator strips it and raises on
empty/whitespace-only input (`none` models the raised `ValidationError`). -/
def mkLLMRequest (text : String) (session_id : Option String) (include_history : Bool) :
    Option LLMRequest :=
  if text.length = 0 ∨ 10000 < text.length then none
  else if pyStrip text = "" then none
  else some ⟨pyStrip text, session_id, include_history⟩

/-- Embeds `LLMResponse` model (src/models/schemas.py). -/
structure LLMResponse where
  success : Bool
  response : Option String
  query : Option String
  session_id : Option String
  error : Option String
  error_type : Option ErrorType
  fallback_response : Option String
deriving DecidableEq, Repr

/-- Outcome of the remote Gemini `generate_content` call. -/
inductive LLMRemote where
  | raised (msg : String)
  | returns (text : String)
deriving DecidableEq, Repr

/-- Environment of `LLMService.generate_response`: configured or not, and
the remote outcome as a function of the prompt sent. -/
structure LLMEnv where
  available : Bool
  remote : String → LLMRemote

/-- Keyword family of the greeting rule in `_generate_contextual_fallback`. -/
def greetingWords : List String := ["hello", "hi", "hey", "good morning", "good afternoon"]

/-- Keyword family of the well-being rule. -/
def wellBeingWords : List String := ["how are you", "how do you do"]

/-- Keyword family of the gratitude rule. -/
def gratitudeWords : List String := ["thank", "thanks"]

/-- Keyword family of the farewell rule. -/
def farewellWords : List String := ["bye", "goodbye", "see you", "farewell"]

/-- Keyword family of the help-request rule. -/
def helpWords : List String := ["help", "support", "assist"]

/-- Keyword family of the question-word rule. -/
def questionWords : List String := ["what", "how", "why", "when", "where", "who"]

/-- Python `any(word in user_lower for word in words)` against the
lower-cased input. -/
def famMatch (words : List String) (user_text : String) : Bool :=
  words.any (fun w => pyIn w (pyLower user_text))

/-- Canned reply of the greeting rule. -/
def greetingReply : String :=
  "Hello! I'm having some technical difficulties with my AI brain, but I'm here to help as best I can."

/-- Canned reply of the well-being rule. -/
def wellBeingReply : String :=
  "I'm experiencing some technical issues right now, but thank you for asking! How can I help you?"

/-- Canned reply of the gratitude rule. -/
def gratitudeReply : String :=
  "You're very welcome! Though I should mention I'm having some connectivity issues at the moment."

/-- Canned reply of the farewell rule. -/
def farewellReply : String :=
  "Goodbye! Sorry for any technical difficulties during our conversation. Hope to chat again soon!"

/-- Canned reply of the help-request rule. -/
def helpReply : String :=
  "I'd love to help you! I'm currently experiencing some technical difficulties, but I'll do my best to assist."

/-- Canned reply of the question-word rule. -/
def questionReply : String :=
  "That's a great question! Unfortunately, I'm having trouble accessing my full knowledge base right now, but please try asking again in a moment."

/-- Reply of the empty-input guard. -/
def emptyInputReply : String :=
  "I didn't catch that. Could you please repeat your message?"

/-- Default ("other") reply around the 50-character truncated preview. -/
def otherReply (preview : String) : String :=
  "I heard you mention something about '" ++ preview ++
    "'. I'm experiencing some technical difficulties, but I'm trying to help as best I can."

/-- Embeds `LLMService._generate_contextual_fallback`: ordered keyword-family rule
list on the lower-cased input, first match wins; the default branch echoes a
50-character ellipsis-truncated preview of the original text. -/
def generate_contextual_fallback (user_text : String) : String :=
  if user_text = "" then emptyInputReply
  else if famMatch greetingWords user_text then greetingReply
  else if famMatch wellBeingWords user_text then wellBeingReply
  else if famMatch gratitudeWords user_text then gratitudeReply
  else if famMatch farewellWords user_text then farewellReply
  else if famMatch helpWords user_text then helpReply
  else if famMatch questionWords user_text then questionReply
  else
    otherReply
      (if 50 < user_text.length then pyTake 50 user_text ++ "..." else user_text)

/-- Role label used by `LLMService._prepare_context` (anything that is not
a user message is labelled "Assistant", faithful to the source). -/
def roleLabel (r : MessageRole) : String :=
  if r = MessageRole.user then "User" else "Assistant"

/-- Embeds `LLMService._prepare_context`: system prompt, optional role-labelled
last-10 history block, current user text, and the "Assistant:" cue. -/
def prepare_context (req : LLMRequest) (chat_history : List ChatMessage) : String :=
  let systemPart :=
    "System: You are a helpful AI voice assistant. Provide clear, concise, and helpful responses. Keep your responses conversational and engaging, suitable for voice interaction."
  let historyParts :=
    if req.include_history && !chat_history.isEmpty then
      "\nConversation History:" ::
        (chat_history.drop (chat_history.length - 10)).map
          (fun m => roleLabel m.role ++ ": " ++ m.content)
    else []
  String.intercalate "\n"
    (systemPart :: historyParts ++ ["\nUser: " ++ req.text, "Assistant:"])

/-- Embeds `LLMService._generate_llm_response`: raises when the remote call raises
or returns empty text (`Except.error` carries the exception text), otherwise
yields the stripped text. -/
def generate_llm_response (env : LLMEnv) (context : String) : Except String String :=
  match env.remote context with
  | .raised msg => .error msg
  | .returns t =>
      if t = "" then .error "Empty response from LLM" else .ok (pyStrip t)

/-- Embeds `LLMService.generate_response`: unavailable/config failure and remote
failure both carry the contextual fallback; success carries the stripped
remote text. -/
def generate_response (env : LLMEnv) (req : LLMRequest) (chat_history : List ChatMessage) :
    LLMResponse :=
  if !env.available then
    { success := false
      response := none
      query := some req.text
      session_id := req.session_id
      error := some "LLM service not available - API key not configured"
      error_type := some ErrorType.config_error
      fallback_response := some (generate_contextual_fallback req.text) }
  else
    match generate_llm_response env (prepare_context req chat_history) with
    | .ok text =>
        { success := true
          response := some text
          query := some req.text
          session_id := req.session_id
          error := none
          error_type := none
          fallback_response := none }
    | .error msg =>
        { success := false
          response := none
          query := some req.text
          session_id := req.session_id
          error := some ("LLM generation failed: " ++ msg)
          error_type := some ErrorType.llm_error
          fallback_response := some (generate_contextual_fallback req.text) }

/-! ## TTS service (src/services/tts.py) -/

/-- Embeds `TTSRequest` model (src/models/schemas.py); voice parameters are not
inspected by the embedded logic and are omitted.  The pydantic validator
strips the text and rejects empty/whitespace-only text, see `mkTTSRequest`. -/
structure TTSRequest where
  text : String
deriving DecidableEq, Repr

/-- Pydantic construction of `TTSRequest`: the field constraints
`min_length=1, max_length=5000` are enforced on the RAW text during field
validation, before the `text` validator strips it and raises on
empty/whitespace-only input (`none` models the raised `ValidationError`). -/
def mkTTSRequest (text : String) : Option TTSRequest :=
  if text.length = 0 ∨ 5000 < text.length then none
  else if pyStrip text = "" then none
  else some ⟨pyStrip text⟩

/-- Embeds `TTSResponse` model (src/models/schemas.py). -/
structure TTSResponse where
  success : Bool
  audio_url : Option String
  error : Option String
  error_type : Option ErrorType
  emergency_fallback : Option String
deriving DecidableEq, Repr

/-- Parsed shape of the Murf HTTP response body: `response.json()` may
raise (unparsable), else yields an optional `audioFile` field (`some ""`
models a present-but-empty value, which the source treats as missing). -/
inductive MurfBody where
  | unparsable (msg : String)
  | json (audioFile : Option String)
deriving DecidableEq, Repr

/-- Outcome of the single `requests.post` in `synthesize_speech`. -/
inductive HttpOutcome where
  | timeout
  | transportError (msg : String)
  | otherRaised (msg : String)
  | response (status : Nat) (body : MurfBody)
deriving DecidableEq, Repr

/-- Environment of one `TTSService.synthesize_speech` call. -/
structure TTSEnv where
  available : Bool
  http : HttpOutcome
deriving DecidableEq, Repr

/-- UTF-8 encoding of one code point (Python `text.encode('utf-8')`). -/
def utf8Bytes (c : Char) : List Nat :=
  let n := c.toNat
  if n < 0x80 then [n]
  else if n < 0x800 then [0xC0 + n / 64, 0x80 + n % 64]
  else if n < 0x10000 then
    [0xE0 + n / 4096, 0x80 + (n / 64) % 64, 0x80 + n % 64]
  else
    [0xF0 + n / 262144, 0x80 + (n / 4096) % 64, 0x80 + (n / 64) % 64, 0x80 + n % 64]

/-- Standard base64 alphabet. -/
def b64Alphabet : List Char :=
  "ABCDEFGHIJKLMNOPQRSTUVWXYZabcdefghijklmnopqrstuvwxyz0123456789+/".data

/-- Character of a 6-bit group. -/
def b64Char (n : Nat) : Char := b64Alphabet.getD n 'A'

/-- Standard base64 encoding with padding (Python `base64.b64encode`). -/
def b64Encode : List Nat → String
  | [] => ""
  | [a] =>
      ⟨[b64Char (a / 4), b64Char (a % 4 * 16), '=', '=']⟩
  | [a, b] =>
      ⟨[b64Char (a / 4), b64Char (a % 4 * 16 + b / 16), b64Char (b % 16 * 4), '=']⟩
  | a :: b :: c :: rest =>
      (⟨[b64Char (a / 4), b64Char (a % 4 * 16 + b / 16),
         b64Char (b % 16 * 4 + c / 64), b64Char (c % 64)]⟩ : String) ++ b64Encode rest

/-- Embeds `TTSService._generate_emergency_fallback`: the input text, UTF-8 and
base64 encoded into a `data:text/plain;base64,` URL, computed locally. -/
def generate_emergency_fallback (text : String) : Option String :=
  some ("data:text/plain;base64," ++ b64Encode (text.data.flatMap utf8Bytes))

/-- Embeds `TTSService._process_murf_response`. -/
def process_murf_response (status : Nat) (body : MurfBody) (original_text : String) :
    TTSResponse :=
  if status ≠ 200 then
    { success := false
      audio_url := none
      error := some ("TTS API returned status " ++ toString status)
      error_type := some ErrorType.api_error
      emergency_fallback := generate_emergency_fallback original_text }
  else
    match body with
    | .unparsable _ =>
        { success := false
          audio_url := none
          error := some "Invalid response format from TTS service"
          error_type := some ErrorType.api_error
          emergency_fallback := generate_emergency_fallback original_text }
    | .json audioFile =>
        match audioFile with
        | none =>
            { success := false
              audio_url := none
              error := some "No audio URL returned from TTS service"
              error_type := some ErrorType.tts_error
              emergency_fallback := generate_emergency_fallback original_text }
        | some url =>
            if url = "" then
              { success := false
                audio_url := none
                error := some "No audio URL returned from TTS service"
                error_type := some ErrorType.tts_error
                emergency_fallback := generate_emergency_fallback original_text }
            else
              { success := true
                audio_url := some url
                error := none
                error_type := none
                emergency_fallback := none }

/-- Embeds `TTSService.synthesize_speech`; the second component counts the network
calls performed (0 when the service is unconfigured, else exactly the one
`requests.post`). -/
def synthesize_speech (env : TTSEnv) (req : TTSRequest) : TTSResponse × Nat :=
  if !env.available then
    ({ success := false
       audio_url := none
       error := some "TTS service not available - API keys not configured"
       error_type := some ErrorType.config_error
       emergency_fallback := generate_emergency_fallback req.text }, 0)
  else
    match env.http with
    | .timeout =>
        ({ success := false
           audio_url := none
           error := some "TTS request timed out"
           error_type := some ErrorType.timeout_error
           emergency_fallback := generate_emergency_fallback req.text }, 1)
    | .transportError msg =>
        ({ success := false
           audio_url := none
           error := some ("TTS API request failed: " ++ msg)
           error_type := some ErrorType.network_error
           emergency_fallback := generate_emergency_fallback req.text }, 1)
    | .otherRaised msg =>
        ({ success := false
           audio_url := none
           error := some ("TTS synthesis failed: " ++ msg)
           error_type := some ErrorType.tts_error
           emergency_fallback := generate_emergency_fallback req.text }, 1)
    | .response status body => (process_murf_response status body req.text, 1)

/-! ## Application layer (src/app.py) -/

/-- A capability stage entered during one invocation (used to record which
service methods the handlers actually call). -/
inductive Stage where
  | stt
  | llm
  | tts
deriving DecidableEq, Repr

/-- Embeds `VoiceQueryResponse` model (src/models/schemas.py). -/
structure VoiceQueryResponse where
  success : Bool
  transcription : Option String
  llm_response : Option String
  audio_url : Option String
  confidence : Option Nat
  chat_history : Option (List ChatMessage)
  session_id : Option String
  message_count : Option Nat
  error : Option String
  error_type : Option ErrorType
  fallback_used : Bool
deriving DecidableEq, Repr

/-- Environments of the three capability clients for one invocation. -/
structure PipelineEnv where
  stt : STTEnv
  llm : LLMEnv
  tts : TTSEnv

/-- Result of `_handle_text_query` as served by `llm_query`: an HTTP 400
error response (pydantic `ErrorResponse` with `success=False` and
`INPUT_ERROR`), an HTTP 500 GENERAL_ERROR from `llm_query`'s catch-all
`except` (e.g. a `ValidationError` raised by `LLMRequest(text=...)`), or
the generator's `LLMResponse` returned directly. -/
inductive TextQueryResult where
  | badRequest (error : String)
  | serverError (error : String)
  | ok (resp : LLMResponse)
deriving DecidableEq, Repr

/-- Python `x or default` on an optional string (`None` and `""` both fall
through to the default). -/
def pyOrElse (o : Option String) (default : String) : String :=
  match o with
  | some s => if s = "" then default else s
  | none => default

/-- Embeds `VoiceAgentApp._handle_text_query`: extract the text (already decoded
from JSON or form; `none` models a missing field, and Python's `if not text`
also treats `""` as missing), validate it, run generation with no chat
history, and return the generator's response unchanged.  Also returns the
(untouched) store and the list of capability stages entered. -/
def handle_text_query (env : LLMEnv) (store : ChatHistoryManager)
    (text : Option String) : TextQueryResult × ChatHistoryManager × List Stage :=
  match text with
  | none => (.badRequest "Missing 'text' field in request", store, [])
  | some t =>
      if t = "" then (.badRequest "Missing 'text' field in request", store, [])
      else
        match validate_text_input t 10000 with
        | some err => (.badRequest err, store, [])
        | none =>
            match mkLLMRequest t none true with
            | none =>
                -- LLMRequest(text=text) raised ValidationError (reachable:
                -- validate_text_input bounds the STRIPPED length, pydantic
                -- bounds the raw one); llm_query's except returns a 500.
                (.serverError "LLM processing failed", store, [])
            | some req => (.ok (generate_response env req []), store, [Stage.llm])

/-- Embeds `VoiceAgentApp._process_voice_pipeline`: STT → session append → recent
history → LLM (fallback on failure) → session append → TTS → assembly.
Returns the response, the store after the call, and the stages entered. -/
def process_voice_pipeline (env : PipelineEnv) (store : ChatHistoryManager)
    (session_id : String) (now : Nat) :
    VoiceQueryResponse × ChatHistoryManager × List Stage :=
  let stt_response := transcribe_audio env.stt
  if !stt_response.success then
    ({ success := false
       transcription := none
       llm_response := none
       audio_url := none
       confidence := none
       chat_history := none
       session_id := some session_id
       message_count := none
       error := stt_response.error
       error_type := stt_response.error_type
       fallback_used := false }, store, [Stage.stt])
  else
    let transcription := stt_response.transcription.getD ""
    let store1 := (store.add_user_message session_id transcription now).2
    let chat_history := store1.get_recent_messages session_id 10
    match mkLLMRequest transcription (some session_id) true with
    | none =>
        -- pydantic ValidationError propagates to the orchestrator's
        -- catch-all (a successful transcription is stripped and non-empty,
        -- so this fires only for transcripts longer than 10000 characters);
        -- the user append already happened and is not rolled back.
        ({ success := false
           transcription := none
           llm_response := none
           audio_url := none
           confidence := none
           chat_history := none
           session_id := some session_id
           message_count := none
           error := some "Voice processing failed: validation error"
           error_type := some ErrorType.general_error
           fallback_used := false }, store1, [Stage.stt])
    | some llm_request =>
        let llm_response := generate_response env.llm llm_request chat_history
        let response_text :=
          if !llm_response.success then
            pyOrElse llm_response.fallback_response
              "I'm having trouble processing your request."
          else llm_response.response.getD ""
        let store2 := (store1.add_assistant_message session_id response_text now).2
        match mkTTSRequest response_text with
        | none =>
            ({ success := false
               transcription := none
               llm_response := none
               audio_url := none
               confidence := none
               chat_history := none
               session_id := some session_id
               message_count := none
               error := some "Voice processing failed: validation error"
               error_type := some ErrorType.general_error
               fallback_used := false }, store2, [Stage.stt, Stage.llm])
        | some tts_request =>
            let tts_response := (synthesize_speech env.tts tts_request).1
            let updated_history := store2.get_chat_history session_id
            ({ success := true
               transcription := some transcription
               llm_response := some response_text
               audio_url := if tts_response.success then tts_response.audio_url else none
               confidence := stt_response.confidence
               chat_history := some updated_history
               session_id := some session_id
               message_count := some updated_history.length
               error := none
               error_type := none
               fallback_used := !llm_response.success || !tts_response.success },
             store2, [Stage.stt, Stage.llm, Stage.tts])

/-! ## Invariant and transition definitions for the session store -/

/-- Count invariant of the session store: every stored session's
`message_count` equals the length of its message list. -/
def countsOk (m : ChatHistoryManager) : Prop :=
  ∀ p ∈ m.sessions, p.2.message_count = p.2.messages.length

instance : DecidablePred countsOk := fun m =>
  inferInstanceAs (Decidable (∀ p ∈ m.sessions, p.2.message_count = p.2.messages.length))

/-- One mutating operation of `ChatHistoryManager`. -/
inductive StoreStep : ChatHistoryManager → ChatHistoryManager → Prop where
  | create : ∀ m now, StoreStep m (m.create_session now).2
  | add : ∀ m sid role content now, StoreStep m (m.add_message sid role content now).2
  | clearOp : ∀ m sid, StoreStep m (m.clear_session sid).2

/-- Stores reachable from the empty store by the mutating operations. -/
inductive ReachableStore : ChatHistoryManager → Prop where
  | empty : ReachableStore ChatHistoryManager.empty
  | step : ∀ m m', ReachableStore m → StoreStep m m' → ReachableStore m'

/-- The failure modes of `TTSService.synthesize_speech`: service not
configured, timeout, transport error, a generic raised exception, non-200
remote status, unparsable response body, or a missing/empty audio reference. -/
def TTSFailureMode (env : TTSEnv) : Prop :=
  env.available = false ∨
  env.http = .timeout ∨
  (∃ msg, env.http = .transportError msg) ∨
  (∃ msg, env.http = .otherRaised msg) ∨
  (∃ status body, env.http = .response status body ∧ status ≠ 200) ∨
  (∃ status msg, env.http = .response status (.unparsable msg)) ∨
  (∃ status, env.http = .response status (.json none)) ∨
  (∃ status, env.http = .response status (.json (some "")))

/-! ## Concrete environments used to instantiate the theorems -/

/-- A fully healthy generator environment returning a fixed reply. -/
def envHealthyLLM : LLMEnv :=
  { available := true
    remote := fun _ => .returns "Hi there! How can I help you today?" }

/-- Pipeline environment whose transcriber is unconfigured. -/
def envSTTUnavailable : PipelineEnv :=
  { stt := .unavailable
    llm := { available := false, remote := fun _ => .raised "down" }
    tts := { available := false, http := .timeout } }

/-- Pipeline environment: transcription succeeds, the generator is down,
synthesis is healthy. -/
def envLLMDown : PipelineEnv :=
  { stt := .remote (.completed (some "Hello there") (some 9))
    llm := { available := false, remote := fun _ => .raised "down" }
    tts := { available := true
             http := .response 200 (.json (some "http://audio.example/voice.mp3")) } }

/-! ## Lemmas about the session store -/

namespace ChatHistoryManager

theorem findSession_append (sid : String) (l l' : List (String × ChatSessionInfo)) :
    findSession sid (l ++ l') =
      match findSession sid l with
      | some v => some v
      | none => findSession sid l' := by
  induction l with
  | nil => rfl
  | cons p rest ih =>
      obtain ⟨k, v⟩ := p
      simp only [List.cons_append, findSession]
      split
      · rfl
      · exact ih

theorem findSession_updateSession_self (sid : String) (f : ChatSessionInfo → ChatSessionInfo)
    (l : List (String × ChatSessionInfo)) :
    findSession sid (updateSession sid f l) = (findSession sid l).map f := by
  induction l with
  | nil => rfl
  | cons p rest ih =>
      obtain ⟨k, v⟩ := p
      simp only [updateSession]
      by_cases h : k = sid
      · simp [findSession, h]
      · simp [findSession, h, ih]

theorem findSession_updateSession_ne (sid tid : String)
    (f : ChatSessionInfo → ChatSessionInfo) (l : List (String × ChatSessionInfo))
    (h : sid ≠ tid) :
    findSession sid (updateSession tid f l) = findSession sid l := by
  induction l with
  | nil => rfl
  | cons p rest ih =>
      obtain ⟨k, v⟩ := p
      simp only [updateSession]
      by_cases hk : k = tid
      · rw [if_pos hk]
        have hks : ¬(k = sid) := fun hc => h (hc.symm.trans hk)
        simp only [findSession, if_neg hks]
      · rw [if_neg hk]
        simp only [findSession]
        by_cases hs : k = sid
        · rw [if_pos hs, if_pos hs]
        · rw [if_neg hs, if_neg hs]
          exact ih

theorem findSession_eraseSession_self (sid : String) (l : List (String × ChatSessionInfo)) :
    findSession sid (eraseSession sid l) = none := by
  induction l with
  | nil => rfl
  | cons p rest ih =>
      obtain ⟨k, v⟩ := p
      simp only [eraseSession, List.filter_cons] at ih ⊢
      by_cases h : k = sid
      · rw [if_neg (by simp [h])]
        exact ih
      · rw [if_pos (by simp [h])]
        simp only [findSession, if_neg h]
        exact ih

theorem findSession_eraseSession_ne (sid tid : String) (l : List (String × ChatSessionInfo))
    (h : sid ≠ tid) :
    findSession sid (eraseSession tid l) = findSession sid l := by
  induction l with
  | nil => rfl
  | cons p rest ih =>
      obtain ⟨k, v⟩ := p
      simp only [eraseSession, List.filter_cons] at ih ⊢
      by_cases hk : k = tid
      · rw [if_neg (by simp [hk])]
        have hks : ¬(k = sid) := fun hc => h (hc.symm.trans hk)
        simp only [findSession, if_neg hks]
        exact ih
      · rw [if_pos (by simp [hk])]
        simp only [findSession]
        by_cases hs : k = sid
        · rw [if_pos hs, if_pos hs]
        · rw [if_neg hs, if_neg hs]
          exact ih

theorem mem_updateSession (tid : String) (f : ChatSessionInfo → ChatSessionInfo)
    (l : List (String × ChatSessionInfo)) (p : String × ChatSessionInfo)
    (hp : p ∈ updateSession tid f l) :
    p ∈ l ∨ ∃ q ∈ l, p = (q.1, f q.2) := by
  induction l with
  | nil => simp [updateSession] at hp
  | cons a rest ih =>
      obtain ⟨k, v⟩ := a
      simp only [updateSession] at hp
      by_cases h : k = tid
      · rw [if_pos h] at hp
        rcases List.mem_cons.mp hp with h1 | h1
        · exact Or.inr ⟨(k, v), List.mem_cons_self _ _, by simpa using h1⟩
        · exact Or.inl (List.mem_cons_of_mem _ h1)
      · rw [if_neg h] at hp
        rcases List.mem_cons.mp hp with h1 | h1
        · exact Or.inl (h1 ▸ List.mem_cons_self _ _)
        · rcases ih h1 with h2 | ⟨q, hq, hq2⟩
          · exact Or.inl (List.mem_cons_of_mem _ h2)
          · exact Or.inr ⟨q, List.mem_cons_of_mem _ hq, hq2⟩

theorem get_chat_history_appendMessage_self (m : ChatHistoryManager) (tid : String)
    (role : MessageRole) (content : String) (now : Nat) :
    (m.appendMessage tid role content now).get_chat_history tid =
      match findSession tid m.sessions with
      | some s => s.messages ++ [⟨role, content, now⟩]
      | none => [] := by
  simp only [get_chat_history, appendMessage, findSession_updateSession_self]
  cases findSession tid m.sessions <;> rfl

theorem get_chat_history_appendMessage_ne (m : ChatHistoryManager) (sid tid : String)
    (role : MessageRole) (content : String) (now : Nat) (h : sid ≠ tid) :
    (m.appendMessage tid role content now).get_chat_history sid = m.get_chat_history sid := by
  simp only [get_chat_history, appendMessage, findSession_updateSession_ne _ _ _ _ h]

theorem get_chat_history_create (m : ChatHistoryManager) (sid : String) (now : Nat)
    (h : (findSession sid m.sessions).isSome) :
    ((m.create_session now).2).get_chat_history sid = m.get_chat_history sid := by
  simp only [get_chat_history, create_session, findSession_append]
  cases hf : findSession sid m.sessions with
  | some v => rfl
  | none => simp [hf] at h

theorem countsOk_appendMessage (m : ChatHistoryManager) (tid : String) (role : MessageRole)
    (content : String) (now : Nat) (h : countsOk m) :
    countsOk (m.appendMessage tid role content now) := by
  intro p hp
  rcases mem_updateSession _ _ _ _ hp with h1 | ⟨q, hq, hq2⟩
  · exact h p h1
  · subst hq2
    rfl

theorem countsOk_create (m : ChatHistoryManager) (now : Nat) (h : countsOk m) :
    countsOk (m.create_session now).2 := by
  intro p hp
  simp only [create_session, List.mem_append, List.mem_singleton] at hp
  rcases hp with h1 | h1
  · exact h p h1
  · subst h1
    rfl

theorem countsOk_step (m m' : ChatHistoryManager) (h : countsOk m) (hs : StoreStep m m') :
    countsOk m' := by
  cases hs with
  | create now => exact countsOk_create m now h
  | add sid role content now =>
      simp only [add_message]
      split
      · exact countsOk_appendMessage _ _ _ _ _ h
      · exact countsOk_appendMessage _ _ _ _ _ (countsOk_create m now h)
  | clearOp sid =>
      simp only [clear_session]
      split
      · intro p hp
        exact h p (List.mem_of_mem_filter hp)
      · exact h

theorem reachable_countsOk (m : ChatHistoryManager) (h : ReachableStore m) : countsOk m := by
  induction h with
  | empty => intro p hp; cases hp
  | step m m' _ hs ih => exact countsOk_step m m' ih hs

theorem get_recent_eq_drop (m : ChatHistoryManager) (sid : String) (n : Nat) (hn : 1 ≤ n) :
    m.get_recent_messages sid n =
      (m.get_chat_history sid).drop ((m.get_chat_history sid).length - n) := by
  unfold get_recent_messages pySliceLast
  by_cases h : (m.get_chat_history sid).isEmpty
  · rw [if_pos h]
    rw [List.isEmpty_iff] at h
    simp [h]
  · rw [if_neg h, if_neg (by omega : ¬n = 0)]

theorem countsOk_total_messages (m : ChatHistoryManager) (hm : countsOk m) :
    (m.get_session_stats).total_messages =
      (m.sessions.map (fun p => p.2.messages.length)).sum := by
  have key : ∀ l : List (String × ChatSessionInfo),
      (∀ p ∈ l, p.2.message_count = p.2.messages.length) →
      (l.map (fun p => p.2.message_count)).sum =
        (l.map (fun p => p.2.messages.length)).sum := by
    intro l hl
    induction l with
    | nil => rfl
    | cons p rest ih =>
        simp only [List.map_cons, List.sum_cons]
        rw [hl p (List.mem_cons_self _ _),
          ih (fun q hq => hl q (List.mem_cons_of_mem _ hq))]
  exact key m.sessions hm

end ChatHistoryManager

/-- A nonempty string has positive length. -/
theorem string_length_pos_of_ne_empty (s : String) (h : s ≠ "") : 0 < s.length := by
  rcases hd : s.data with _ | ⟨c, cs⟩
  · exact absurd (String.ext (by simp [hd])) h
  · simp [String.length, hd]

/-- A nonempty left operand makes a string concatenation nonempty. -/
theorem string_append_ne_empty_left (a b : String) (ha : a ≠ "") : a ++ b ≠ "" := by
  intro hc
  have h2 : a.data ++ b.data = [] := by
    have := congrArg String.data hc
    simpa [String.data_append] using this
  rcases List.append_eq_nil.mp h2 with ⟨h1, _⟩
  exact ha (String.ext (by simp [h1]))

/-- The default fallback reply is never empty, whatever the preview. -/
theorem otherReply_ne_empty (p : String) : otherReply p ≠ "" :=
  string_append_ne_empty_left _ _
    (string_append_ne_empty_left "I heard you mention something about '" p (by decide))

/-! ## Claims -/

open ChatHistoryManager in
/-- C2: the claim says `append` with an unknown session id creates a session
for THAT id and stores the message there, so `history(id)` is non-empty right
after.  The code instead generates a fresh uuid inside `add_message` and
appends the message under the fresh id: after `append("s1", user, "hi")` on
the empty store, `history("s1")` is still empty, no session named `"s1"`
exists, and the only session is the phantom `uuid-0` holding the message.
(The read half of the claim does hold: `history`/`recent` on an unknown id
return `[]` and, being pure reads in the source, create nothing.) -/
theorem c2_append_unknown_id_misroutes_message :
    ((ChatHistoryManager.empty.add_message "s1" MessageRole.user "hi" 0).2.get_chat_history
        "s1" = []) ∧
    ((ChatHistoryManager.empty.add_message "s1" MessageRole.user "hi" 0).2.hasSession
        "s1" = false) ∧
    ((ChatHistoryManager.empty.add_message "s1" MessageRole.user "hi" 0).2.sessions.map
        Prod.fst = [uuidStr 0]) ∧
    ((ChatHistoryManager.empty.add_message "s1" MessageRole.user "hi" 0).2.get_chat_history
        (uuidStr 0) = [⟨MessageRole.user, "hi", 0⟩]) ∧
    ChatHistoryManager.empty.get_chat_history "s1" = [] ∧
    ChatHistoryManager.empty.get_recent_messages "s1" 10 = [] := by
  decide

open ChatHistoryManager in
/-- C9: `clear` returns true iff a session with that id existed (removing
it); an immediate second `clear` returns false, and `history(id)` afterwards
is empty. -/
theorem c9_clear_session_semantics (m : ChatHistoryManager) (sid : String) :
    ((m.clear_session sid).1 = true ↔ m.hasSession sid = true) ∧
    (((m.clear_session sid).2).clear_session sid).1 = false ∧
    ((m.clear_session sid).2).get_chat_history sid = [] := by
  by_cases hf : (findSession sid m.sessions).isSome = true
  · refine ⟨by simp [clear_session, hasSession, hf], ?_, ?_⟩
    · simp [clear_session, hf, findSession_eraseSession_self]
    · simp [clear_session, hf, get_chat_history, findSession_eraseSession_self]
  · have hnone : findSession sid m.sessions = none := by
      cases hfs : findSession sid m.sessions
      · rfl
      · simp [hfs] at hf
    refine ⟨by simp [clear_session, hasSession, hnone], ?_, ?_⟩
    · simp [clear_session, hnone]
    · simp [clear_session, get_chat_history, hnone]

open ChatHistoryManager in
/-- C5 counterexample: `recent(id, 0)` on a one-message session returns the
whole message list (Python `messages[-0:]` is `messages[0:]`), not the last
`min(0, total) = 0` messages, so the claim fails for `n = 0`. -/
theorem c5_recent_zero_counterexample :
    ((((ChatHistoryManager.empty.create_session 0).2.add_message (uuidStr 0)
          MessageRole.user "m" 1).2).get_recent_messages (uuidStr 0) 0).length ≠
      min 0
        ((((ChatHistoryManager.empty.create_session 0).2.add_message (uuidStr 0)
          MessageRole.user "m" 1).2).get_chat_history (uuidStr 0)).length := by
  decide

open ChatHistoryManager in
/-- C5 (amended to `n ≥ 1`): after an `append`, `recent(id, n)` returns
exactly the last `min(n, total)` messages of the session named `id` in
arrival order, and `stats.total_messages` equals the sum of the stored
sessions' history lengths (message counts equal list lengths). -/
theorem c5_recent_after_append (m : ChatHistoryManager) (sid : String)
    (role : MessageRole) (content : String) (now n : Nat) (hn : 1 ≤ n)
    (hm : countsOk m) :
    ((m.add_message sid role content now).2.get_recent_messages sid n =
      ((m.add_message sid role content now).2.get_chat_history sid).drop
        (((m.add_message sid role content now).2.get_chat_history sid).length - n)) ∧
    ((m.add_message sid role content now).2.get_recent_messages sid n).length =
      min n ((m.add_message sid role content now).2.get_chat_history sid).length ∧
    ((m.add_message sid role content now).2.get_session_stats).total_messages =
      ((m.add_message sid role content now).2.sessions.map
        (fun p => p.2.messages.length)).sum := by
  have h1 := get_recent_eq_drop (m.add_message sid role content now).2 sid n hn
  refine ⟨h1, ?_, ?_⟩
  · rw [h1, List.length_drop]
    omega
  · exact countsOk_total_messages _
      (countsOk_step m _ hm (StoreStep.add m sid role content now))

open ChatHistoryManager in
/-- C5 witness: concrete instance of the amended claim at `n = 10` on the
empty store. -/
theorem c5_recent_after_append_witness :
    (ChatHistoryManager.empty.add_message "s1" MessageRole.user "hi" 0).2.get_recent_messages
        "s1" 10 =
      ((ChatHistoryManager.empty.add_message "s1" MessageRole.user "hi" 0).2.get_chat_history
        "s1").drop
        (((ChatHistoryManager.empty.add_message "s1" MessageRole.user "hi"
          0).2.get_chat_history "s1").length - 10) :=
  (c5_recent_after_append ChatHistoryManager.empty "s1" MessageRole.user "hi" 0 10
    (by decide) (by intro p hp; cases hp)).1

open ChatHistoryManager in
/-- C8: on every store reachable by create/append/clear, every stored
session's `message_count` equals the length of its message list, and every
mutating operation either removes a session wholesale or leaves its previous
message list as a prefix of the new one (append-only growth, no reorder, no
in-place edit). -/
theorem c8_store_invariants (m : ChatHistoryManager) (h : ReachableStore m) :
    countsOk m ∧
    ∀ m', StoreStep m m' → ∀ sid, m.hasSession sid = true →
      m'.hasSession sid = false ∨
        m.get_chat_history sid <+: m'.get_chat_history sid := by
  refine ⟨reachable_countsOk m h, ?_⟩
  intro m' hs sid hsid
  obtain ⟨s, hfind⟩ := Option.isSome_iff_exists.mp hsid
  cases hs with
  | create now =>
      right
      rw [get_chat_history_create m sid now hsid]
  | add sid2 role content now =>
      right
      simp only [add_message]
      by_cases hk : (findSession sid2 m.sessions).isSome = true
      · rw [if_pos hk]
        by_cases he : sid = sid2
        · subst he
          rw [get_chat_history_appendMessage_self]
          simp only [get_chat_history, hfind]
          exact List.prefix_append _ _
        · rw [get_chat_history_appendMessage_ne _ _ _ _ _ _ he]
      · rw [if_neg hk]
        by_cases he : sid = (m.create_session now).1
        · rw [← he, get_chat_history_appendMessage_self]
          have : findSession sid ((m.create_session now).2).sessions = some s := by
            simp only [create_session, findSession_append, hfind]
          rw [this]
          simp only [get_chat_history, hfind]
          exact List.prefix_append _ _
        · rw [get_chat_history_appendMessage_ne _ _ _ _ _ _ he,
            get_chat_history_create m sid now hsid]
  | clearOp sid2 =>
      simp only [clear_session]
      by_cases hk : (findSession sid2 m.sessions).isSome = true
      · rw [if_pos hk]
        by_cases he : sid = sid2
        · subst he
          left
          simp [hasSession, findSession_eraseSession_self]
        · right
          simp only [get_chat_history, findSession_eraseSession_ne _ _ _ he]
          exact List.prefix_refl _
      · rw [if_neg hk]
        right
        exact List.prefix_refl _

open ChatHistoryManager in
/-- C8 witness: the invariant holds on a concrete reachable store. -/
theorem c8_store_invariants_witness :
    countsOk (ChatHistoryManager.empty.add_message "s1" MessageRole.user "hi" 0).2 :=
  (c8_store_invariants _
    (ReachableStore.step _ _ ReachableStore.empty
      (StoreStep.add ChatHistoryManager.empty "s1" MessageRole.user "hi" 0))).1

open ChatHistoryManager in
/-- C10: `stats` reports the number of stored sessions, the sum of their
message counts (equal to the sum of their history lengths), and as active
sessions exactly the ids with a positive message count; a session freshly
made by `create_session` adds one to `total_sessions` but joins neither
`total_messages` nor the active list. -/
theorem c10_session_stats (m : ChatHistoryManager) (now : Nat) (hm : countsOk m) :
    (m.get_session_stats).total_sessions = m.sessions.length ∧
    (m.get_session_stats).total_messages =
      (m.sessions.map (fun p => p.2.messages.length)).sum ∧
    (∀ sid, sid ∈ (m.get_session_stats).active_sessions ↔
      ∃ p ∈ m.sessions, p.1 = sid ∧ 0 < p.2.messages.length) ∧
    (((m.create_session now).2).get_session_stats).total_sessions =
      (m.get_session_stats).total_sessions + 1 ∧
    (((m.create_session now).2).get_session_stats).total_messages =
      (m.get_session_stats).total_messages ∧
    (((m.create_session now).2).get_session_stats).active_sessions =
      (m.get_session_stats).active_sessions := by
  refine ⟨rfl, countsOk_total_messages m hm, ?_, ?_, ?_, ?_⟩
  · intro sid
    constructor
    · intro hmem
      rcases List.mem_map.mp hmem with ⟨p, hp, hfst⟩
      rcases List.mem_filter.mp hp with ⟨hpl, hcount⟩
      refine ⟨p, hpl, hfst, ?_⟩
      have := of_decide_eq_true hcount
      rwa [hm p hpl] at this
    · rintro ⟨p, hpl, hfst, hlen⟩
      exact List.mem_map.mpr
        ⟨p, List.mem_filter.mpr ⟨hpl, decide_eq_true (by rw [hm p hpl]; exact hlen)⟩, hfst⟩
  · simp [get_session_stats, create_session]
  · simp [get_session_stats, create_session]
  · simp [get_session_stats, create_session, List.filter_append]

/-- C7: `_generate_contextual_fallback` always returns a non-empty reply,
classifies the lower-cased input by an ordered keyword-family rule list
(greeting, well-being, gratitude, farewell, help, question word) evaluated
top to bottom with first match winning, and in the default branch embeds the
first 50 characters of the input suffixed with an ellipsis when the input
exceeds 50 characters, otherwise the full input.  (An empty input is caught
by a guard before the rule list and still yields a non-empty canned reply.) -/
theorem c7_contextual_fallback_classification (s : String) :
    generate_contextual_fallback s ≠ "" ∧
    (famMatch greetingWords s = true →
      generate_contextual_fallback s = greetingReply) ∧
    (famMatch greetingWords s = false → famMatch wellBeingWords s = true →
      generate_contextual_fallback s = wellBeingReply) ∧
    (famMatch greetingWords s = false → famMatch wellBeingWords s = false →
      famMatch gratitudeWords s = true →
      generate_contextual_fallback s = gratitudeReply) ∧
    (famMatch greetingWords s = false → famMatch wellBeingWords s = false →
      famMatch gratitudeWords s = false → famMatch farewellWords s = true →
      generate_contextual_fallback s = farewellReply) ∧
    (famMatch greetingWords s = false → famMatch wellBeingWords s = false →
      famMatch gratitudeWords s = false → famMatch farewellWords s = false →
      famMatch helpWords s = true →
      generate_contextual_fallback s = helpReply) ∧
    (famMatch greetingWords s = false → famMatch wellBeingWords s = false →
      famMatch gratitudeWords s = false → famMatch farewellWords s = false →
      famMatch helpWords s = false → famMatch questionWords s = true →
      generate_contextual_fallback s = questionReply) ∧
    (s ≠ "" → famMatch greetingWords s = false → famMatch wellBeingWords s = false →
      famMatch gratitudeWords s = false → famMatch farewellWords s = false →
      famMatch helpWords s = false → famMatch questionWords s = false →
      generate_contextual_fallback s =
        otherReply (if 50 < s.length then pyTake 50 s ++ "..." else s)) := by
  refine ⟨?_, ?_, ?_, ?_, ?_, ?_, ?_, ?_⟩
  · unfold generate_contextual_fallback
    split_ifs <;> first | decide | exact otherReply_ne_empty _
  · intro h1
    have hne : s ≠ "" := by intro hc; subst hc; exact absurd h1 (by decide)
    simp [generate_contextual_fallback, hne, h1]
  · intro h1 h2
    have hne : s ≠ "" := by intro hc; subst hc; exact absurd h2 (by decide)
    simp [generate_contextual_fallback, hne, h1, h2]
  · intro h1 h2 h3
    have hne : s ≠ "" := by intro hc; subst hc; exact absurd h3 (by decide)
    simp [generate_contextual_fallback, hne, h1, h2, h3]
  · intro h1 h2 h3 h4
    have hne : s ≠ "" := by intro hc; subst hc; exact absurd h4 (by decide)
    simp [generate_contextual_fallback, hne, h1, h2, h3, h4]
  · intro h1 h2 h3 h4 h5
    have hne : s ≠ "" := by intro hc; subst hc; exact absurd h5 (by decide)
    simp [generate_contextual_fallback, hne, h1, h2, h3, h4, h5]
  · intro h1 h2 h3 h4 h5 h6
    have hne : s ≠ "" := by intro hc; subst hc; exact absurd h6 (by decide)
    simp [generate_contextual_fallback, hne, h1, h2, h3, h4, h5, h6]
  · intro hne h1 h2 h3 h4 h5 h6
    simp [generate_contextual_fallback, hne, h1, h2, h3, h4, h5, h6]

/-- C7 witness: a greeting input takes the first rule; a 60-character
keyword-free input takes the default branch with the truncated preview. -/
theorem c7_contextual_fallback_witness :
    generate_contextual_fallback "Hello there" = greetingReply ∧
    generate_contextual_fallback (String.mk (List.replicate 60 'z')) =
      otherReply
        (if 50 < (String.mk (List.replicate 60 'z')).length then
          pyTake 50 (String.mk (List.replicate 60 'z')) ++ "..."
        else String.mk (List.replicate 60 'z')) := by
  constructor
  · exact (c7_contextual_fallback_classification "Hello there").2.1 (by decide)
  · exact (c7_contextual_fallback_classification
      (String.mk (List.replicate 60 'z'))).2.2.2.2.2.2.2
      (by decide) (by decide) (by decide) (by decide) (by decide) (by decide) (by decide)

/-- Every degenerate Murf response (non-200 status, unparsable body, or an
absent/empty audio reference) yields failure carrying the emergency
fallback. -/
theorem process_murf_response_failure (st : Nat) (body : MurfBody) (text : String)
    (h : st ≠ 200 ∨ (∃ msg, body = .unparsable msg) ∨
      body = .json none ∨ body = .json (some "")) :
    (process_murf_response st body text).success = false ∧
    (process_murf_response st body text).emergency_fallback =
      generate_emergency_fallback text := by
  by_cases h200 : st = 200
  · subst h200
    rcases h with h | ⟨msg, h⟩ | h | h
    · exact absurd rfl h
    · subst h; constructor <;> simp [process_murf_response]
    · subst h; constructor <;> simp [process_murf_response]
    · subst h; constructor <;> simp [process_murf_response]
  · constructor <;> simp [process_murf_response, h200]

/-- C6: every failure mode of `synthesize_speech` (service unconfigured,
timeout, transport error, raised exception, non-200 status, unparsable
body, missing/empty audio reference) returns failure carrying the emergency
fallback — the input text UTF-8 and base64 encoded into a
`data:text/plain;base64,` URL — computed locally, with at most the single
synthesis network call and never a second one. -/
theorem c6_synthesize_failure_emergency_fallback (env : TTSEnv) (req : TTSRequest)
    (h : TTSFailureMode env) :
    ((synthesize_speech env req).1.success = false) ∧
    ((synthesize_speech env req).1.emergency_fallback =
      some ("data:text/plain;base64," ++ b64Encode (req.text.data.flatMap utf8Bytes))) ∧
    (synthesize_speech env req).2 ≤ 1 := by
  obtain ⟨avail, http⟩ := env
  by_cases ha : avail = true
  · rcases h with h | h | ⟨msg, h⟩ | ⟨msg, h⟩ | ⟨st, body, h, hst⟩ | ⟨st, msg, h⟩
      | ⟨st, h⟩ | ⟨st, h⟩
    · rw [ha] at h; cases h
    all_goals subst h
    · refine ⟨?_, ?_, ?_⟩ <;> simp [synthesize_speech, ha, generate_emergency_fallback]
    · refine ⟨?_, ?_, ?_⟩ <;> simp [synthesize_speech, ha, generate_emergency_fallback]
    · refine ⟨?_, ?_, ?_⟩ <;> simp [synthesize_speech, ha, generate_emergency_fallback]
    · have hp := process_murf_response_failure st body req.text (Or.inl hst)
      refine ⟨?_, ?_, ?_⟩ <;>
        simp [synthesize_speech, ha, hp.1, hp.2, generate_emergency_fallback]
    · have hp := process_murf_response_failure st (.unparsable msg) req.text
        (Or.inr (Or.inl ⟨msg, rfl⟩))
      refine ⟨?_, ?_, ?_⟩ <;>
        simp [synthesize_speech, ha, hp.1, hp.2, generate_emergency_fallback]
    · have hp := process_murf_response_failure st (.json none) req.text
        (Or.inr (Or.inr (Or.inl rfl)))
      refine ⟨?_, ?_, ?_⟩ <;>
        simp [synthesize_speech, ha, hp.1, hp.2, generate_emergency_fallback]
    · have hp := process_murf_response_failure st (.json (some "")) req.text
        (Or.inr (Or.inr (Or.inr rfl)))
      refine ⟨?_, ?_, ?_⟩ <;>
        simp [synthesize_speech, ha, hp.1, hp.2, generate_emergency_fallback]
  · have ha' : avail = false := by revert ha; cases avail <;> simp
    subst ha'
    refine ⟨?_, ?_, ?_⟩ <;> simp [synthesize_speech, generate_emergency_fallback]

/-- C6 witness: a timeout on the text "Hi" yields failure with the local
data-URL fallback `SGk=` (base64 of the UTF-8 bytes of "Hi") after the one
network call. -/
theorem c6_synthesize_failure_witness :
    ((synthesize_speech ⟨true, .timeout⟩ ⟨"Hi"⟩).1.success = false) ∧
    ((synthesize_speech ⟨true, .timeout⟩ ⟨"Hi"⟩).1.emergency_fallback =
      some "data:text/plain;base64,SGk=") ∧
    (synthesize_speech ⟨true, .timeout⟩ ⟨"Hi"⟩).2 ≤ 1 := by
  have h := c6_synthesize_failure_emergency_fallback ⟨true, .timeout⟩ ⟨"Hi"⟩
    (Or.inr (Or.inl rfl))
  exact ⟨h.1, h.2.1.trans (by decide), h.2.2⟩

/-- C4: when transcription fails — including the empty/whitespace-only
transcript case, classified STT_ERROR ("No speech detected in audio") — the
voice pipeline returns overall failure carrying the transcriber's error
category and message, the store is returned unchanged (no session
mutation), and only the STT stage is entered (no generation, no
synthesis). -/
theorem c4_transcription_failure_is_fatal_and_pure :
    (∀ (env : PipelineEnv) (store : ChatHistoryManager) (sid : String) (now : Nat),
      (transcribe_audio env.stt).success = false →
      process_voice_pipeline env store sid now =
        ({ success := false
           transcription := none
           llm_response := none
           audio_url := none
           confidence := none
           chat_history := none
           session_id := some sid
           message_count := none
           error := (transcribe_audio env.stt).error
           error_type := (transcribe_audio env.stt).error_type
           fallback_used := false }, store, [Stage.stt])) ∧
    (∀ (t : String) (conf : Option Nat), pyStrip t = "" →
      transcribe_audio (.remote (.completed (some t) conf)) =
        ⟨false, none, none, none, some "No speech detected in audio",
          some ErrorType.stt_error⟩) := by
  constructor
  · intro env store sid now h
    simp [process_voice_pipeline, h]
  · intro t conf h
    simp [transcribe_audio, perform_transcription, h]

/-- C4 witness: unconfigured transcriber on the empty store, plus the
whitespace-only transcript classification. -/
theorem c4_transcription_failure_witness :
    (process_voice_pipeline envSTTUnavailable ChatHistoryManager.empty "s1" 0).1.success
        = false ∧
    (process_voice_pipeline envSTTUnavailable ChatHistoryManager.empty "s1" 0).1.error_type
        = some ErrorType.config_error ∧
    (process_voice_pipeline envSTTUnavailable ChatHistoryManager.empty "s1" 0).2.1
        = ChatHistoryManager.empty ∧
    (process_voice_pipeline envSTTUnavailable ChatHistoryManager.empty "s1" 0).2.2
        = [Stage.stt] ∧
    transcribe_audio (.remote (.completed (some "  ") none)) =
      ⟨false, none, none, none, some "No speech detected in audio",
        some ErrorType.stt_error⟩ := by
  have h := c4_transcription_failure_is_fatal_and_pure.1 envSTTUnavailable
    ChatHistoryManager.empty "s1" 0 (by decide)
  refine ⟨?_, ?_, ?_, ?_,
    c4_transcription_failure_is_fatal_and_pure.2 "  " none (by decide)⟩ <;>
    (rw [h]; try decide)

/-- C3: evaluation at the failing input.  With an unknown session id "s1"
and a failed generation, the pipeline does substitute the generation's
contextual fallback as the assistant text, still attempts synthesis on it,
and reports `fallback_used=true` with overall `success=true`; but the
assistant message is appended under a freshly generated uuid session
(`uuid-1`), not to session "s1", whose history stays empty — the response
even reports `message_count = 0`. -/
theorem c3_generation_failure_evaluated :
    (process_voice_pipeline envLLMDown ChatHistoryManager.empty "s1" 5).1.success = true ∧
    (process_voice_pipeline envLLMDown ChatHistoryManager.empty "s1" 5).1.fallback_used
        = true ∧
    (process_voice_pipeline envLLMDown ChatHistoryManager.empty "s1" 5).1.llm_response =
      some (generate_contextual_fallback "Hello there") ∧
    (process_voice_pipeline envLLMDown ChatHistoryManager.empty "s1" 5).1.audio_url =
      some "http://audio.example/voice.mp3" ∧
    (process_voice_pipeline envLLMDown ChatHistoryManager.empty "s1" 5).2.2 =
      [Stage.stt, Stage.llm, Stage.tts] ∧
    ((process_voice_pipeline envLLMDown ChatHistoryManager.empty
        "s1" 5).2.1).get_chat_history "s1" = [] ∧
    (process_voice_pipeline envLLMDown ChatHistoryManager.empty "s1" 5).1.message_count
        = some 0 ∧
    ((process_voice_pipeline envLLMDown ChatHistoryManager.empty
        "s1" 5).2.1).get_chat_history (uuidStr 1) =
      [⟨MessageRole.assistant, generate_contextual_fallback "Hello there", 5⟩] := by
  decide

/-- C1 counterexample: for text input "Hello" with a healthy generator, the
text handler leaves the store untouched (total stored messages 0, not 2),
enters only the generation stage, and never synthesizes. -/
theorem c1_text_query_counterexample :
    (handle_text_query envHealthyLLM ChatHistoryManager.empty (some "Hello")).2.1 =
      ChatHistoryManager.empty ∧
    (handle_text_query envHealthyLLM ChatHistoryManager.empty (some "Hello")).2.2 =
      [Stage.llm] ∧
    Stage.tts ∉ (handle_text_query envHealthyLLM ChatHistoryManager.empty
      (some "Hello")).2.2 ∧
    (((handle_text_query envHealthyLLM ChatHistoryManager.empty
        (some "Hello")).2.1).get_session_stats).total_messages = 0 := by
  decide

/-- C1 (amended): a valid text-only request (non-empty, raw length within
pydantic's 10000-character bound, passing the handler's validation) runs
only the generation step — no session append, no history fetch, no
synthesis: the handler returns the generator's `LLMResponse` unchanged
(success with the stripped remote reply when the generator is healthy), the
store is returned untouched, and the only capability stage entered is
generation. -/
theorem c1_text_query_generation_only (env : LLMEnv) (store : ChatHistoryManager)
    (t r : String) (havail : env.available = true)
    (hremote : ∀ c, env.remote c = .returns r) (hr : r ≠ "")
    (ht : t ≠ "") (hlen : t.length ≤ 10000)
    (hv : validate_text_input t 10000 = none) :
    handle_text_query env store (some t) =
      (.ok { success := true
             response := some (pyStrip r)
             query := some (pyStrip t)
             session_id := none
             error := none
             error_type := none
             fallback_response := none }, store, [Stage.llm]) := by
  have hst : pyStrip t ≠ "" := by
    intro hc
    simp [validate_text_input, ht, hc] at hv
  have hpos : 0 < t.length := string_length_pos_of_ne_empty t ht
  have hcond : ¬(t.length = 0 ∨ 10000 < t.length) := by omega
  simp [handle_text_query, ht, hv, mkLLMRequest, hcond, hst, generate_response, havail,
    generate_llm_response, hremote, hr]

/-- C1 witness: concrete healthy-generator run on text "Hello". -/
theorem c1_text_query_generation_only_witness :
    handle_text_query envHealthyLLM ChatHistoryManager.empty (some "Hello") =
      (.ok { success := true
             response := some "Hi there! How can I help you today?"
             query := some "Hello"
             session_id := none
             error := none
             error_type := none
             fallback_response := none }, ChatHistoryManager.empty, [Stage.llm]) := by
  have h := c1_text_query_generation_only envHealthyLLM ChatHistoryManager.empty
    "Hello" "Hi there! How can I help you today?" rfl (fun c => rfl)
    (by decide) (by decide) (by decide) (by decide)
  exact h.trans (by decide)

open ChatHistoryManager in
/-- C10 witness: concrete instance on a store with one active session. -/
theorem c10_session_stats_witness :
    (((ChatHistoryManager.empty.add_message "s1" MessageRole.user "hi"
        0).2.create_session 1).2.get_session_stats).active_sessions =
      ((ChatHistoryManager.empty.add_message "s1" MessageRole.user "hi"
        0).2.get_session_stats).active_sessions :=
  (c10_session_stats (ChatHistoryManager.empty.add_message "s1" MessageRole.user "hi" 0).2
    1 (by decide)).2.2.2.2.2

end VoiceAgent
